import Mathlib

/-! The go-sso authentication handlers.

A shallow embedding of `service/api/auth/jwt.go` (the token driver) and
`service/api/v1/v1_auth.go` (the `AuthViewset` handlers).

* Go strings are Lean strings; `strings.Replace` is modelled on the character list.
* A `*gin.Context` is split into the read-only `Request` (headers, query string) and the
  mutable `State` (the context's `Keys`, the process-wide verification-code store, and a log of
  the calls the handler makes to its collaborators and of the responses it writes).
* Collaborators whose code is outside the embedded files (the `inter.IUser` repository,
  `util`, `email_tool`, the `viewset.ViewSet` response helpers) are fields of `Env`.
* `*model.User` values are modelled by value: a collaborator that reports success hands back a
  non-nil pointer.
-/

namespace GoSso

/-! ## Data model -/

/-- Error values seen by the handlers: the package-level values of `api_error`, the fresh
values built in place by `errors.New`, and errors handed back by collaborators. -/
inductive Err where
  | ErrInvalid
  | ErrAuth
  | ErrInternal
  | ErrTokenInvalid
  | New (text : String)
  | External (text : String)
  deriving DecidableEq, Repr

/-- The fields of `model.User` that the handlers read or write. -/
structure User where
  Username : String
  Telephone : String
  Email : String
  Password : String
  deriving DecidableEq, Repr

/-- Claims carried by a token; `jwtAuthManager.Check` reads `Username`. -/
structure Claims where
  Username : String
  deriving DecidableEq, Repr

/-- Fields of `model.UserParams`, bound by `Login`. -/
structure UserParams where
  Account : String
  Password : String
  deriving DecidableEq, Repr

/-- Fields of `model.TelephoneLoginParams`. -/
structure TelephoneLoginParams where
  Telephone : String
  Code : String
  deriving DecidableEq, Repr

/-- Fields of `model.RegisterParams`. -/
structure RegisterParams where
  Username : String
  Telephone : String
  Email : String
  Password : String
  deriving DecidableEq, Repr

/-- Fields of `model.ResetPasswordParams`. -/
structure ResetPasswordParams where
  Account : String
  VerifyType : String
  Code : String
  NewPassword : String
  deriving DecidableEq, Repr

/-- Fields of `model.ChangePasswordParams`. -/
structure ChangePasswordParams where
  RawPassword : String
  NewPassword : String
  deriving DecidableEq, Repr

/-- A Go `map[string]string` / string-valued map literal as an association list. -/
abbrev StrMap := List (String × String)

/-- Go `interface{}` values together with their dynamic type. `gin.H` is the defined type
`type H map[string]any`, so a `gin.H` value and a `map[string]interface{}` value have different
dynamic types. The only map built in the embedded code is `gin.H{"token": token}` or
`gin.H{"url": ""}`, whose entries are strings. -/
inductive Value where
  | Nil
  | Str (s : String)
  | UserPtr (u : User)
  | GinH (m : StrMap)
  | MapStringInterface (m : StrMap)
  deriving DecidableEq, Repr

/-- The type assertion `v.(map[string]interface{})` in its comma-ok form: it succeeds exactly
when the dynamic type of `v` is `map[string]interface{}`. -/
def Value.assertMapStringInterface : Value → Option StrMap
  | .MapStringInterface m => some m
  | _ => none

/-- Calls made to collaborators and responses written, in the order they happen. -/
inductive Event where
  | CheckCall
  | ParseToken (token : String)
  | LogError
  | DriverLogin (u : User)
  | GeneratePassword (password : String)
  | Create (u : User)
  | ChangePassword (u : User) (newPassword : String)
  | SendEmailCode (code email : String)
  | SetCache (key value : String)
  | FailResponse (e : Err) (errs : StrMap)
  | SuccessResponse (res : Value)
  | SuccessBlankResponse
  | Redirect (status : Nat) (url : String)
  deriving DecidableEq, Repr

/-- Read-only part of a `*gin.Context`: request headers and URL query parameters. -/
structure Request where
  Header : StrMap
  Query : StrMap
  deriving DecidableEq, Repr

/-- Mutable part of the world a handler runs in. -/
structure State where
  Keys : List (String × Value)
  cache : StrMap
  events : List Event
  deriving DecidableEq, Repr

/-- Either a normal return or a Go `panic` carrying an error value. -/
inductive Outcome (α : Type) where
  | ret (a : α)
  | panic (e : Err)
  deriving DecidableEq, Repr

/-- The `inter.IUser` interface of `db/inter/i_user.go`. -/
structure IUser where
  GetUserByAccount : String → Except Err User
  Get : String → Except Err User
  Create : User → Except Err User
  CheckUser : String → String → User × Bool
  Exists : String → String → Bool
  IsValid : String → String → Bool
  ChangePassword : User → String → Option Err

/-- Collaborators of the embedded files whose code lies elsewhere. -/
structure Env where
  itemInter : IUser
  QueryGetUserByAccount : String → Except Err User
  ParseToken : String → Except Err Claims
  GenerateToken : String → String → String × Option Err
  GeneratePassword : String → Except Err String
  BuildUrlQuery : String → StrMap → Except Err String
  RandomCode : String
  SendEmailCode : String → String → Option Err
  ValidateRegister : RegisterParams → Option Err
  ValidateChangePassword : ChangePasswordParams → Option Err
  GetCurrentUser : Request → State → User
  SuccessResponse : Value → Option Err
  SuccessBlankResponse : Option Err

/-! ## Small helpers -/

/-- First value bound to `k`, if any. -/
def lookup {β : Type} (k : String) : List (String × β) → Option β
  | [] => none
  | (k', v) :: rest => if k' = k then some v else lookup k rest

/-- `Header.Get(k)` and `c.Query(k)`: the bound value, or the empty string. -/
def getD (m : StrMap) (k : String) : String :=
  match lookup k m with
  | some v => v
  | none => ""

/-- Assignment `m[k] = v` on a map: an existing binding is replaced. -/
def setKey {β : Type} (m : List (String × β)) (k : String) (v : β) : List (String × β) :=
  (k, v) :: m.filter (fun p => !(p.1 == k))

/-- Append an event to the log. -/
def State.log (st : State) (e : Event) : State :=
  { st with events := st.events ++ [e] }

/-- The call `c.Set(k, v)`. -/
def State.Set (st : State) (k : String) (v : Value) : State :=
  { st with Keys := setKey st.Keys k v }

/-- The call `c.Get(k)`, as `(value, exists)` folded into an option. -/
def State.Get (st : State) (k : String) : Option Value :=
  lookup k st.Keys

/-! ## strings.Replace -/

/-- Strip `old` from the front of `s` when it is a prefix. -/
def stripFront : (old s : List Char) → Option (List Char)
  | [], s => some s
  | _ :: _, [] => none
  | a :: old, b :: s => if a = b then stripFront old s else none

/-- Leftmost-first, non-overlapping replacement of a non-empty `old` by `new` in `s`,
at most `n` times when `n` is `some _`, without limit when `none`. After a match the
remaining characters of that occurrence are passed over (`skip` counts them). -/
def replaceLoop (old new : List Char) : (skip : Nat) → (n : Option Nat) → List Char → List Char
  | _, _, [] => []
  | skip + 1, n, _ :: rest => replaceLoop old new skip n rest
  | 0, some 0, c :: rest => c :: rest
  | 0, n, c :: rest =>
    match stripFront old (c :: rest) with
    | some _ => new ++ replaceLoop old new (old.length - 1) (n.map Nat.pred) rest
    | none => c :: replaceLoop old new 0 n rest

/-- Replacement with an empty `old`: `new` is inserted before the string and after each
character, at most `n` times. -/
def insertLoop (new : List Char) : (n : Option Nat) → List Char → List Char
  | some 0, s => s
  | n, [] => if n = some 0 then [] else new
  | n, c :: rest => new ++ c :: insertLoop new (n.map Nat.pred) rest

/-- Go `strings.Replace(s, old, new, n)`: a negative `n` means no limit. -/
def stringsReplace (s old new : String) (n : Int) : String :=
  if old = new ∨ n = 0 then s
  else
    let limit : Option Nat := if n < 0 then none else some n.toNat
    if old.data = [] then String.mk (insertLoop new.data limit s.data)
    else String.mk (replaceLoop old.data new.data 0 limit s.data)

/-! ## service/api/auth/jwt.go -/

/-- The method `jwtAuthManager.Check`. -/
def jwtAuthManager.Check (env : Env) (c : Request) (st : State) : Option Err × State :=
  let st := st.log .CheckCall
  let token := getD c.Header "Authorization"
  let token := stringsReplace token "Token " "" (-1)
  if token = "" then (some .ErrTokenInvalid, st)
  else
    let st := st.log (.ParseToken token)
    match env.ParseToken token with
    | .error err => (some err, st.log .LogError)
    | .ok clamis =>
      let username := clamis.Username
      match env.QueryGetUserByAccount username with
      | .error err => (some err, st)
      | .ok user => (none, st.Set "User" (.UserPtr user))

/-- The method `jwtAuthManager.User`. -/
def jwtAuthManager.User (env : Env) (c : Request) (st : State) : Outcome Value × State :=
  match st.Get "User" with
  | some user => (.ret user, st)
  | none =>
    match jwtAuthManager.Check env c st with
    | (some err, st) => (.panic err, st.log .LogError)
    | (none, st) =>
      match st.Get "User" with
      | some user => (.ret user, st)
      | none => (.ret .Nil, st)

/-- The method `jwtAuthManager.Login`: the error of `GenerateToken` is discarded. -/
def jwtAuthManager.Login (env : Env) (user : GoSso.User) (st : State) : Value × State :=
  let token := (env.GenerateToken user.Username user.Password).1
  (.GinH [("token", token)], st.log (.DriverLogin user))

/-- The method `jwtAuthManager.Logout`. -/
def jwtAuthManager.Logout : Bool := true

/-! ## The verification-code store -/

/-- Modelled from the spec: `pkg/storage` is outside the embedded files. `GetCache` on the store
of `storage.GetStore()` reads the code held for an identifier without consuming it; expiry
happens between handler calls, not inside one. -/
def GetCache (st : State) (key : String) : Option String :=
  lookup key st.cache

/-- Modelled from the spec: `SetCache` of `pkg/storage` stores the code for an identifier,
overwriting the previous one. -/
def SetCache (st : State) (key value : String) : State :=
  ({ st with cache := setKey st.cache key value }).log (.SetCache key value)

/-! ## service/api/v1/v1_auth.go -/

/-- Modelled from the spec: `middlewares.GenerateAuthDriver(middlewares.TokenAuth)` is outside
the embedded files; the token driver is the only driver variant, so `driver.Login` is
`jwtAuthManager.Login`. -/
def driverLogin (env : Env) (u : User) (st : State) : Value × State :=
  jwtAuthManager.Login env u st

/-- The handler `AuthViewset.Login`; `bind` is the outcome of `c.ShouldBind(&up)`. -/
def AuthViewset.Login (env : Env) (c : Request) (bind : Except Err UserParams) (st : State) :
    Option Err × State :=
  match bind with
  | .error _ => (some .ErrInvalid, (st.log .LogError).log (.FailResponse .ErrInvalid []))
  | .ok up =>
    let ur := env.itemInter.CheckUser up.Account up.Password
    if !ur.2 then (some .ErrAuth, st)
    else
      let rs := driverLogin env ur.1 st
      let query := getD c.Query "redirect_url"
      if query ≠ "" then
        match rs.1.assertMapStringInterface with
        | none => (some .ErrInternal, rs.2)
        | some m =>
          match env.BuildUrlQuery query m with
          | .error _ => (some .ErrInternal, rs.2.log .LogError)
          | .ok url => (none, rs.2.log (.Redirect 301 url))
      else (env.SuccessResponse rs.1, rs.2.log (.SuccessResponse rs.1))

/-- The method `AuthViewset.VerifySmsCode`: the bare `return` hands back the named result
`err`, still nil, and the fall-through is `return nil`. -/
def AuthViewset.VerifySmsCode (st : State) (telephone code : String) : Option Err :=
  match GetCache st telephone with
  | some rightCode => if rightCode = code then none else none
  | none => none

/-- The method `AuthViewset.VerifyEmailCode`, of the same shape as `VerifySmsCode`. -/
def AuthViewset.VerifyEmailCode (st : State) (email code : String) : Option Err :=
  match GetCache st email with
  | some rightCode => if rightCode = code then none else none
  | none => none

/-- The handler `AuthViewset.TelephoneLogin`. -/
def AuthViewset.TelephoneLogin (env : Env) (bind : Except Err TelephoneLoginParams) (st : State) :
    Option Err × State :=
  match bind with
  | .error err => (some err, st)
  | .ok tl =>
    match AuthViewset.VerifySmsCode st tl.Telephone tl.Code with
    | some err => (some err, st)
    | none =>
      match env.itemInter.GetUserByAccount tl.Telephone with
      | .error err => (some err, st)
      | .ok u =>
        let rs := driverLogin env u st
        (env.SuccessResponse rs.1, rs.2.log (.SuccessResponse rs.1))

/-- The method `AuthViewset.CheckRegisterParams`. -/
def AuthViewset.CheckRegisterParams (itemInter : IUser) (rp : RegisterParams) : StrMap :=
  let errs : StrMap := []
  let errs := if !itemInter.IsValid rp.Username "username"
    then setKey errs "username" "用户名至少3位以上字母开头" else errs
  let errs := if !itemInter.IsValid rp.Telephone "telephone"
    then setKey errs "telephone" "手机号格式错误" else errs
  let errs := if rp.Email ≠ "" ∧ !itemInter.IsValid rp.Email "email"
    then setKey errs "email" "email格式错误" else errs
  if errs.length > 0 then errs
  else
    let errs := if itemInter.Exists rp.Username "username"
      then setKey errs "username" "用户已经存在" else errs
    let errs := if itemInter.Exists rp.Telephone "telephone"
      then setKey errs "telephone" "手机号已经存在" else errs
    let errs := if rp.Email ≠ "" ∧ itemInter.Exists rp.Email "email"
      then setKey errs "email" "email已经存在" else errs
    errs

/-- The handler `AuthViewset.Register`. -/
def AuthViewset.Register (env : Env) (bind : Except Err RegisterParams) (st : State) : Option Err × State :=
  match bind with
  | .error err => (some err, st.log .LogError)
  | .ok rp =>
    match env.ValidateRegister rp with
    | some err => (some err, st)
    | none =>
      let errs := AuthViewset.CheckRegisterParams env.itemInter rp
      if errs.length > 0 then (none, st.log (.FailResponse .ErrInvalid errs))
      else
        let st := st.log (.GeneratePassword rp.Password)
        match env.GeneratePassword rp.Password with
        | .error err => (some err, st.log .LogError)
        | .ok newPassword =>
          let user : User :=
            { Username := rp.Username, Telephone := rp.Telephone, Email := rp.Email,
              Password := newPassword }
          let st := st.log (.Create user)
          match env.itemInter.Create user with
          | .error err => (some err, st.log .LogError)
          | .ok _ =>
            (env.SuccessResponse (.Str "注册成功"), st.log (.SuccessResponse (.Str "注册成功")))

/-- The handler `AuthViewset.SendSmsCode`, with its fixed code. -/
def AuthViewset.SendSmsCode (env : Env) (c : Request) (st : State) : Option Err × State :=
  let code := "123456"
  let telephone := getD c.Query "telephone"
  if !env.itemInter.IsValid telephone "telephone" then (some .ErrInvalid, st)
  else
    let st := SetCache st telephone code
    (env.SuccessBlankResponse, st.log .SuccessBlankResponse)

/-- The handler `AuthViewset.SendEmailCode`. -/
def AuthViewset.SendEmailCode (env : Env) (c : Request) (st : State) : Option Err × State :=
  let email := getD c.Query "email"
  if !env.itemInter.IsValid email "email" then (some .ErrInvalid, st)
  else
    let code := env.RandomCode
    let st := st.log (.SendEmailCode code email)
    match env.SendEmailCode code email with
    | some err => (some err, st)
    | none =>
      let st := SetCache st email code
      (env.SuccessResponse (.GinH [("url", "")]), st.log (.SuccessResponse (.GinH [("url", "")])))

/-- The handler `AuthViewset.ResetPassword`. -/
def AuthViewset.ResetPassword (env : Env) (bind : Except Err ResetPasswordParams) (st : State) :
    Option Err × State :=
  match bind with
  | .error err => (some err, st)
  | .ok rp =>
    match env.itemInter.GetUserByAccount rp.Account with
    | .error err => (some err, st)
    | .ok user =>
      let err : Option Err :=
        if rp.VerifyType = "email" then AuthViewset.VerifyEmailCode st user.Email rp.Code
        else if rp.VerifyType = "telephone" then AuthViewset.VerifySmsCode st user.Telephone rp.Code
        else some (.New "验证类型错误")
      match err with
      | some e => (some e, st)
      | none =>
        let st := st.log (.ChangePassword user rp.NewPassword)
        match env.itemInter.ChangePassword user rp.NewPassword with
        | some e => (some e, st)
        | none => (env.SuccessBlankResponse, st.log .SuccessBlankResponse)

/-- The handler `AuthViewset.ChangePassword`. `middlewares.GetCurrentUser(c)` is outside the
embedded files and is read through `Env.GetCurrentUser`. -/
def AuthViewset.ChangePassword (env : Env) (c : Request) (bind : Except Err ChangePasswordParams)
    (st : State) : Option Err × State :=
  match bind with
  | .error err => (some err, st.log .LogError)
  | .ok cp =>
    match env.ValidateChangePassword cp with
    | some err => (some err, st.log .LogError)
    | none =>
      let username := (env.GetCurrentUser c st).Username
      let uok := env.itemInter.CheckUser username cp.RawPassword
      if uok.2 then
        let st := st.log (.ChangePassword uok.1 cp.NewPassword)
        match env.itemInter.ChangePassword uok.1 cp.NewPassword with
        | some err => (some err, st.log .LogError)
        | none => (env.SuccessBlankResponse, st.log .SuccessBlankResponse)
      else (some (.New "原密码错误"), st)

/-- Events appended to the log between two states. -/
def newEvents (before after : State) : List Event :=
  after.events.drop before.events.length

/-! ## A concrete deployment used for evaluation -/

/-- The one registered user of the sample repository. -/
def alice : User :=
  { Username := "alice", Telephone := "13800000000", Email := "alice@example.com",
    Password := "hash:secret123" }

/-- Whether `account` names `alice` by username, telephone or email. -/
def isAlice (account : String) : Bool :=
  account == alice.Username || account == alice.Telephone || account == alice.Email

/-- A sample repository holding `alice`: usernames start with a letter and have at least
three characters, telephones are eleven digits starting with `1`, emails contain `@`. -/
def sampleRepo : IUser where
  GetUserByAccount := fun account =>
    if isAlice account then .ok alice else .error (.External "record not found")
  Get := fun _ => .error (.External "record not found")
  Create := fun u => .ok u
  CheckUser := fun account password =>
    if isAlice account && ("hash:" ++ password == alice.Password) then (alice, true)
    else ({ Username := "", Telephone := "", Email := "", Password := "" }, false)
  Exists := fun v kind =>
    (kind == "username" && v == alice.Username) ||
    (kind == "telephone" && v == alice.Telephone) ||
    (kind == "email" && v == alice.Email)
  IsValid := fun v kind =>
    if kind = "username" then
      decide (3 ≤ v.data.length) && (v.data.head?.map Char.isAlpha == some true)
    else if kind = "telephone" then
      decide (v.data.length = 11) && v.data.all Char.isDigit && (v.data.head? == some '1')
    else v.data.contains '@'
  ChangePassword := fun _ _ => none

/-- A sample environment around `sampleRepo`: tokens are `jwt.` followed by the username. -/
def sampleEnv : Env where
  itemInter := sampleRepo
  QueryGetUserByAccount := sampleRepo.GetUserByAccount
  ParseToken := fun t =>
    match stripFront "jwt.".data t.data with
    | some name => .ok { Username := String.mk name }
    | none => .error (.External "token is malformed")
  GenerateToken := fun username _ => ("jwt." ++ username, none)
  GeneratePassword := fun p => .ok ("hash:" ++ p)
  BuildUrlQuery := fun url m =>
    .ok (url ++ "?" ++ String.intercalate "&" (m.map (fun kv => kv.1 ++ "=" ++ kv.2)))
  RandomCode := "8f3k2z"
  SendEmailCode := fun _ email =>
    if email = "bounce@example.com" then some (.External "smtp: delivery failed") else none
  ValidateRegister := fun _ => none
  ValidateChangePassword := fun _ => none
  GetCurrentUser := fun _ _ => alice
  SuccessResponse := fun _ => none
  SuccessBlankResponse := none

/-- A fresh request state: nothing cached on the context, an empty code store, an empty log. -/
def emptyState : State :=
  { Keys := [], cache := [], events := [] }

/-! ## Supporting lemmas -/

/-- Reading a key right after assigning it gives the assigned value. -/
theorem lookup_setKey {β : Type} (m : List (String × β)) (k : String) (v : β) :
    lookup k (setKey m k v) = some v := by
  simp [setKey, lookup]

/-- Nothing was logged between a state and itself. -/
theorem newEvents_self (st : State) : newEvents st st = [] := by
  simp [newEvents]

/-- One logged event is the only new event. -/
theorem newEvents_log (st : State) (e : Event) : newEvents st (st.log e) = [e] := by
  simp [newEvents, State.log]

/-- Two logged events are the new events, in order. -/
theorem newEvents_log_log (st : State) (e₁ e₂ : Event) :
    newEvents st ((st.log e₁).log e₂) = [e₁, e₂] := by
  simp [newEvents, State.log]

/-- On a header made of the literal `Token ` followed by `t`, the replacement in `Check`
drops the leading occurrence and goes on to scrub `t` itself. -/
theorem stringsReplace_Token_append (t : String) :
    stringsReplace ("Token " ++ t) "Token " "" (-1) = stringsReplace t "Token " "" (-1) := by
  have h : ("Token " ++ t).data = 'T' :: 'o' :: 'k' :: 'e' :: 'n' :: ' ' :: t.data := by
    simp [String.data_append]
  simp [stringsReplace, h, replaceLoop, stripFront]

/-- Both verification methods return nil whatever the store holds. -/
theorem VerifySmsCode_eq_none (st : State) (telephone code : String) :
    AuthViewset.VerifySmsCode st telephone code = none := by
  unfold AuthViewset.VerifySmsCode
  split
  · split <;> rfl
  · rfl

/-- The email variant returns nil whatever the store holds. -/
theorem VerifyEmailCode_eq_none (st : State) (email code : String) :
    AuthViewset.VerifyEmailCode st email code = none := by
  unfold AuthViewset.VerifyEmailCode
  split
  · split <;> rfl
  · rfl

/-- With the token driver, a matched login carrying a redirect target always ends in
`ErrInternal`: the driver returns a `gin.H`, which the assertion to
`map[string]interface{}` rejects. -/
theorem Login_redirect_ErrInternal (env : Env) (c : Request) (up : UserParams) (st : State)
    (hm : (env.itemInter.CheckUser up.Account up.Password).2 = true)
    (hq : getD c.Query "redirect_url" ≠ "") :
    AuthViewset.Login env c (.ok up) st =
      (some .ErrInternal,
        st.log (.DriverLogin (env.itemInter.CheckUser up.Account up.Password).1)) := by
  simp [AuthViewset.Login, hm, hq, driverLogin, jwtAuthManager.Login, Value.assertMapStringInterface]

/-- A username that fails the format check always gets its entry in the mapping. -/
theorem CheckRegisterParams_username_format (r : IUser) (rp : RegisterParams)
    (h : r.IsValid rp.Username "username" = false) :
    lookup "username" (AuthViewset.CheckRegisterParams r rp) = some "用户名至少3位以上字母开头" := by
  by_cases he : rp.Email = "" <;>
  cases h2 : r.IsValid rp.Telephone "telephone" <;>
  cases h3 : r.IsValid rp.Email "email" <;>
  simp [AuthViewset.CheckRegisterParams, setKey, lookup, he, h, h2, h3]

/-! ## Telephone login and password reset: code verification -/

/-- C1: at the failing input, the store holds `123456` for `13800000000` and the submitted code
is `wrong`; `VerifySmsCode` returns nil, `TelephoneLogin` returns nil, the driver's `Login` is
invoked for the account and a token is sent in the success response. -/
theorem C1_TelephoneLogin_wrong_code_issues_token :
    GetCache { Keys := [], cache := [("13800000000", "123456")], events := [] } "13800000000"
        = some "123456" ∧
      AuthViewset.VerifySmsCode { Keys := [], cache := [("13800000000", "123456")], events := [] }
        "13800000000" "wrong" = none ∧
      AuthViewset.VerifySmsCode emptyState "13800000000" "wrong" = none ∧
      AuthViewset.TelephoneLogin sampleEnv (.ok { Telephone := "13800000000", Code := "wrong" })
          { Keys := [], cache := [("13800000000", "123456")], events := [] } =
        (none,
          { Keys := [], cache := [("13800000000", "123456")],
            events := [.DriverLogin alice,
              .SuccessResponse (.GinH [("token", "jwt.alice")])] }) := by
  decide

/-- C2: at the failing input, the store holds `8f3k2z` for the email of `alice` and the
submitted code is `wrong`; `ResetPassword` with verify type `email` (and likewise
`telephone`, with nothing stored) returns nil after calling the repository's
`ChangePassword` with the new password. -/
theorem C2_ResetPassword_wrong_code_changes_password :
    AuthViewset.ResetPassword sampleEnv
        (.ok { Account := "alice", VerifyType := "email", Code := "wrong",
               NewPassword := "hunter22" })
        { Keys := [], cache := [("alice@example.com", "8f3k2z")], events := [] } =
      (none,
        { Keys := [], cache := [("alice@example.com", "8f3k2z")],
          events := [.ChangePassword alice "hunter22", .SuccessBlankResponse] }) ∧
    AuthViewset.ResetPassword sampleEnv
        (.ok { Account := "alice", VerifyType := "telephone", Code := "wrong",
               NewPassword := "hunter22" })
        emptyState =
      (none,
        { Keys := [], cache := [],
          events := [.ChangePassword alice "hunter22", .SuccessBlankResponse] }) := by
  decide

/-! ## ChangePassword -/

/-- C3, as stated, fails: with a wrong current password `ChangePassword` returns the value
built by `errors.New("原密码错误")`, which is not `api_error.ErrAuth`, the error `Login`
returns for the same failed check. -/
theorem C3_ChangePassword_error_is_not_ErrAuth :
    (sampleEnv.itemInter.CheckUser "alice" "wrong").2 = false ∧
      (AuthViewset.ChangePassword sampleEnv { Header := [], Query := [] }
          (.ok { RawPassword := "wrong", NewPassword := "hunter22" }) emptyState).1
        = some (.New "原密码错误") ∧
      (AuthViewset.Login sampleEnv { Header := [], Query := [] }
          (.ok { Account := "alice", Password := "wrong" }) emptyState).1
        = some .ErrAuth ∧
      (AuthViewset.ChangePassword sampleEnv { Header := [], Query := [] }
          (.ok { RawPassword := "wrong", NewPassword := "hunter22" }) emptyState).1
        ≠ some .ErrAuth := by
  decide

/-- C3, amended: when the request binds and validates and `CheckUser` reports
`matched = false` for the current user's name and the raw password, `ChangePassword` returns
the handler-local error `errors.New("原密码错误")` and leaves the state as it was: no call to
the repository's `ChangePassword`, no response, no log entry. -/
theorem C3_ChangePassword_mismatch (env : Env) (c : Request) (cp : ChangePasswordParams)
    (st : State)
    (hv : env.ValidateChangePassword cp = none)
    (hm : (env.itemInter.CheckUser (env.GetCurrentUser c st).Username cp.RawPassword).2
            = false) :
    AuthViewset.ChangePassword env c (.ok cp) st = (some (.New "原密码错误"), st) ∧
      newEvents st (AuthViewset.ChangePassword env c (.ok cp) st).2 = [] ∧
      ∀ u p, Event.ChangePassword u p ∉ newEvents st (AuthViewset.ChangePassword env c (.ok cp) st).2 := by
  have h : AuthViewset.ChangePassword env c (.ok cp) st = (some (.New "原密码错误"), st) := by
    simp [AuthViewset.ChangePassword, hv, hm]
  simp [h, newEvents_self]

/-- C3 at a concrete request: alice submits the wrong current password. -/
theorem C3_ChangePassword_mismatch_witness :
    AuthViewset.ChangePassword sampleEnv { Header := [], Query := [] }
        (.ok { RawPassword := "wrong", NewPassword := "hunter22" }) emptyState
      = (some (.New "原密码错误"), emptyState) ∧
      newEvents emptyState
        (AuthViewset.ChangePassword sampleEnv { Header := [], Query := [] }
          (.ok { RawPassword := "wrong", NewPassword := "hunter22" }) emptyState).2 = [] ∧
      ∀ u p, Event.ChangePassword u p ∉ newEvents emptyState
        (AuthViewset.ChangePassword sampleEnv { Header := [], Query := [] }
          (.ok { RawPassword := "wrong", NewPassword := "hunter22" }) emptyState).2 :=
  C3_ChangePassword_mismatch sampleEnv { Header := [], Query := [] }
    { RawPassword := "wrong", NewPassword := "hunter22" } emptyState (by decide) (by decide)

/-! ## Login -/

/-- C7: for a `Login` request that binds, when `CheckUser` reports `matched = false` the
handler returns `api_error.ErrAuth` and leaves the state untouched (no driver call, no
response, no redirect); when it reports `matched = true` the first thing that happens is the
driver's `Login` on the user `CheckUser` returned; and any driver `Login` in the log was made
with `matched = true` and that user. -/
theorem C7_Login_mismatch (env : Env) (c : Request) (up : UserParams) (st : State) :
    ((env.itemInter.CheckUser up.Account up.Password).2 = false →
        AuthViewset.Login env c (.ok up) st = (some .ErrAuth, st) ∧
        newEvents st (AuthViewset.Login env c (.ok up) st).2 = []) ∧
    ((env.itemInter.CheckUser up.Account up.Password).2 = true →
        (newEvents st (AuthViewset.Login env c (.ok up) st).2).head? =
          some (.DriverLogin (env.itemInter.CheckUser up.Account up.Password).1)) ∧
    (∀ u, Event.DriverLogin u ∈ newEvents st (AuthViewset.Login env c (.ok up) st).2 →
        env.itemInter.CheckUser up.Account up.Password = (u, true)) := by
  cases hr : (env.itemInter.CheckUser up.Account up.Password).2
  · have h : AuthViewset.Login env c (.ok up) st = (some .ErrAuth, st) := by simp [AuthViewset.Login, hr]
    simp [h, newEvents_self]
  · have hu : ∀ u, u = (env.itemInter.CheckUser up.Account up.Password).1 →
        env.itemInter.CheckUser up.Account up.Password = (u, true) := by
      intro u h
      rw [h, ← hr]
    by_cases hq : getD c.Query "redirect_url" = ""
    · have h : AuthViewset.Login env c (.ok up) st =
          (env.SuccessResponse (driverLogin env (env.itemInter.CheckUser up.Account up.Password).1 st).1,
            (driverLogin env (env.itemInter.CheckUser up.Account up.Password).1 st).2.log
              (.SuccessResponse (driverLogin env (env.itemInter.CheckUser up.Account up.Password).1 st).1)) := by
        simp [AuthViewset.Login, hr, hq]
      rw [h]
      simp only [driverLogin, jwtAuthManager.Login, newEvents_log_log]
      simp
      exact hu _ rfl
    · rw [Login_redirect_ErrInternal env c up st hr hq]
      simp [newEvents_log]
      exact hu _ rfl

/-- C7 at concrete requests: alice with a wrong and with the right password. -/
theorem C7_Login_mismatch_witness :
    (AuthViewset.Login sampleEnv { Header := [], Query := [] }
          (.ok { Account := "alice", Password := "wrong" }) emptyState
        = (some .ErrAuth, emptyState) ∧
      newEvents emptyState (AuthViewset.Login sampleEnv { Header := [], Query := [] }
          (.ok { Account := "alice", Password := "wrong" }) emptyState).2 = []) ∧
    (newEvents emptyState (AuthViewset.Login sampleEnv { Header := [], Query := [] }
          (.ok { Account := "alice", Password := "secret123" }) emptyState).2).head?
        = some (.DriverLogin alice) ∧
    sampleEnv.itemInter.CheckUser "alice" "secret123" = (alice, true) :=
  ⟨(C7_Login_mismatch sampleEnv { Header := [], Query := [] }
      { Account := "alice", Password := "wrong" } emptyState).1 (by decide),
   (C7_Login_mismatch sampleEnv { Header := [], Query := [] }
      { Account := "alice", Password := "secret123" } emptyState).2.1 (by decide),
   (C7_Login_mismatch sampleEnv { Header := [], Query := [] }
      { Account := "alice", Password := "secret123" } emptyState).2.2 alice (by decide)⟩

/-- C6: at the failing input the credential check succeeds and `redirect_url` is
`https://app.example.com/cb`; the token driver's `Login` returns a `gin.H`, the assertion
`res.(map[string]interface{})` fails, and the handler returns `api_error.ErrInternal` with no
redirect and no body written. -/
theorem C6_Login_redirect_fails_internal :
    (sampleEnv.itemInter.CheckUser "alice" "secret123").2 = true ∧
      (jwtAuthManager.Login sampleEnv alice emptyState).1 = .GinH [("token", "jwt.alice")] ∧
      AuthViewset.Login sampleEnv { Header := [], Query := [("redirect_url", "https://app.example.com/cb")] }
          (.ok { Account := "alice", Password := "secret123" }) emptyState =
        (some .ErrInternal, { Keys := [], cache := [], events := [.DriverLogin alice] }) := by
  decide

/-! ## Register -/

/-- C5, as stated, fails: with the two-character username `ab` (a format violation) and the
telephone of an existing user, the mapping has no `telephone` entry, since the uniqueness
checks are skipped once a format violation was found. -/
theorem C5_CheckRegisterParams_skips_uniqueness :
    sampleRepo.IsValid "ab" "username" = false ∧
      sampleRepo.IsValid "13800000000" "telephone" = true ∧
      sampleRepo.Exists "13800000000" "telephone" = true ∧
      AuthViewset.CheckRegisterParams sampleRepo
          { Username := "ab", Telephone := "13800000000", Email := "", Password := "secret123" }
        = [("username", "用户名至少3位以上字母开头")] ∧
      lookup "telephone" (AuthViewset.CheckRegisterParams sampleRepo
          { Username := "ab", Telephone := "13800000000", Email := "", Password := "secret123" })
        = none := by
  decide

/-- C5, amended: the mapping of `CheckRegisterParams` has the format message for every field
among username, telephone and non-empty email whose format is invalid; when no field has a
format violation it has the already-exists message for every field whose value exists; and
when some field has a format violation the uniqueness probe has no influence on the mapping
(the function returns before consulting it). -/
theorem C5_CheckRegisterParams_entries (r : IUser) (rp : RegisterParams) :
    (r.IsValid rp.Username "username" = false →
        lookup "username" (AuthViewset.CheckRegisterParams r rp) = some "用户名至少3位以上字母开头") ∧
    (r.IsValid rp.Telephone "telephone" = false →
        lookup "telephone" (AuthViewset.CheckRegisterParams r rp) = some "手机号格式错误") ∧
    (rp.Email ≠ "" → r.IsValid rp.Email "email" = false →
        lookup "email" (AuthViewset.CheckRegisterParams r rp) = some "email格式错误") ∧
    (r.IsValid rp.Username "username" = true → r.IsValid rp.Telephone "telephone" = true →
      (rp.Email = "" ∨ r.IsValid rp.Email "email" = true) →
        (r.Exists rp.Username "username" = true →
          lookup "username" (AuthViewset.CheckRegisterParams r rp) = some "用户已经存在") ∧
        (r.Exists rp.Telephone "telephone" = true →
          lookup "telephone" (AuthViewset.CheckRegisterParams r rp) = some "手机号已经存在") ∧
        (rp.Email ≠ "" → r.Exists rp.Email "email" = true →
          lookup "email" (AuthViewset.CheckRegisterParams r rp) = some "email已经存在")) ∧
    ((r.IsValid rp.Username "username" = false ∨ r.IsValid rp.Telephone "telephone" = false ∨
        (rp.Email ≠ "" ∧ r.IsValid rp.Email "email" = false)) →
        ∀ ex : String → String → Bool,
          AuthViewset.CheckRegisterParams { r with Exists := ex } rp = AuthViewset.CheckRegisterParams r rp) := by
  by_cases he : rp.Email = "" <;>
  cases h1 : r.IsValid rp.Username "username" <;>
  cases h2 : r.IsValid rp.Telephone "telephone" <;>
  cases h3 : r.IsValid rp.Email "email" <;>
  cases h4 : r.Exists rp.Username "username" <;>
  cases h5 : r.Exists rp.Telephone "telephone" <;>
  cases h6 : r.Exists rp.Email "email" <;>
  simp [AuthViewset.CheckRegisterParams, setKey, lookup, he, h1, h2, h3, h4, h5, h6]

/-- C5 at concrete parameter sets of the sample repository. -/
theorem C5_CheckRegisterParams_entries_witness :
    lookup "username" (AuthViewset.CheckRegisterParams sampleRepo
        { Username := "ab", Telephone := "12345", Email := "nobody", Password := "secret123" })
      = some "用户名至少3位以上字母开头" ∧
    lookup "telephone" (AuthViewset.CheckRegisterParams sampleRepo
        { Username := "ab", Telephone := "12345", Email := "nobody", Password := "secret123" })
      = some "手机号格式错误" ∧
    lookup "email" (AuthViewset.CheckRegisterParams sampleRepo
        { Username := "ab", Telephone := "12345", Email := "nobody", Password := "secret123" })
      = some "email格式错误" ∧
    lookup "username" (AuthViewset.CheckRegisterParams sampleRepo
        { Username := "alice", Telephone := "13800000000", Email := "alice@example.com",
          Password := "secret123" })
      = some "用户已经存在" ∧
    lookup "telephone" (AuthViewset.CheckRegisterParams sampleRepo
        { Username := "alice", Telephone := "13800000000", Email := "alice@example.com",
          Password := "secret123" })
      = some "手机号已经存在" ∧
    lookup "email" (AuthViewset.CheckRegisterParams sampleRepo
        { Username := "alice", Telephone := "13800000000", Email := "alice@example.com",
          Password := "secret123" })
      = some "email已经存在" ∧
    AuthViewset.CheckRegisterParams { sampleRepo with Exists := fun _ _ => true }
        { Username := "ab", Telephone := "13800000000", Email := "", Password := "secret123" }
      = AuthViewset.CheckRegisterParams sampleRepo
        { Username := "ab", Telephone := "13800000000", Email := "", Password := "secret123" } :=
  ⟨(C5_CheckRegisterParams_entries sampleRepo
      { Username := "ab", Telephone := "12345", Email := "nobody", Password := "secret123" }).1
      (by decide),
   (C5_CheckRegisterParams_entries sampleRepo
      { Username := "ab", Telephone := "12345", Email := "nobody", Password := "secret123" }).2.1
      (by decide),
   (C5_CheckRegisterParams_entries sampleRepo
      { Username := "ab", Telephone := "12345", Email := "nobody", Password := "secret123" }).2.2.1
      (by decide) (by decide),
   ((C5_CheckRegisterParams_entries sampleRepo
      { Username := "alice", Telephone := "13800000000", Email := "alice@example.com",
        Password := "secret123" }).2.2.2.1 (by decide) (by decide) (Or.inr (by decide))).1
      (by decide),
   ((C5_CheckRegisterParams_entries sampleRepo
      { Username := "alice", Telephone := "13800000000", Email := "alice@example.com",
        Password := "secret123" }).2.2.2.1 (by decide) (by decide) (Or.inr (by decide))).2.1
      (by decide),
   ((C5_CheckRegisterParams_entries sampleRepo
      { Username := "alice", Telephone := "13800000000", Email := "alice@example.com",
        Password := "secret123" }).2.2.2.1 (by decide) (by decide) (Or.inr (by decide))).2.2
      (by decide) (by decide),
   (C5_CheckRegisterParams_entries sampleRepo
      { Username := "ab", Telephone := "13800000000", Email := "", Password := "secret123" }).2.2.2.2
      (Or.inl (by decide)) (fun _ _ => true)⟩

/-- C4: when the request binds and validates and `CheckRegisterParams` returns a non-empty
mapping, `Register` answers `FailResponse(ErrInvalid, mapping)` and does nothing else: no call
to the password hasher, none to the repository's `Create`. Whenever the username fails the
format check the mapping has a `username` entry, and `Register` calls neither the hasher nor
`Create`, whatever the other fields are and whatever `Validate` says. -/
theorem C4_Register_validation_failure (env : Env) (rp : RegisterParams) (st : State) :
    (env.ValidateRegister rp = none → AuthViewset.CheckRegisterParams env.itemInter rp ≠ [] →
        AuthViewset.Register env (.ok rp) st =
          (none, st.log (.FailResponse .ErrInvalid (AuthViewset.CheckRegisterParams env.itemInter rp))) ∧
        newEvents st (AuthViewset.Register env (.ok rp) st).2 =
          [.FailResponse .ErrInvalid (AuthViewset.CheckRegisterParams env.itemInter rp)]) ∧
    (env.itemInter.IsValid rp.Username "username" = false →
        lookup "username" (AuthViewset.CheckRegisterParams env.itemInter rp)
          = some "用户名至少3位以上字母开头" ∧
        (∀ p, Event.GeneratePassword p ∉ newEvents st (AuthViewset.Register env (.ok rp) st).2) ∧
        (∀ u, Event.Create u ∉ newEvents st (AuthViewset.Register env (.ok rp) st).2)) := by
  have key : env.ValidateRegister rp = none → AuthViewset.CheckRegisterParams env.itemInter rp ≠ [] →
      AuthViewset.Register env (.ok rp) st =
        (none, st.log (.FailResponse .ErrInvalid (AuthViewset.CheckRegisterParams env.itemInter rp))) := by
    intro hv hne
    have hlen : (AuthViewset.CheckRegisterParams env.itemInter rp).length > 0 :=
      List.length_pos.mpr hne
    simp [AuthViewset.Register, hv, hlen]
  refine ⟨fun hv hne => ⟨key hv hne, ?_⟩, fun hu => ?_⟩
  · rw [key hv hne]
    exact newEvents_log _ _
  · have hl := CheckRegisterParams_username_format env.itemInter rp hu
    refine ⟨hl, ?_⟩
    have hne : AuthViewset.CheckRegisterParams env.itemInter rp ≠ [] := by
      intro h0
      rw [h0] at hl
      simp [lookup] at hl
    cases hv : env.ValidateRegister rp with
    | some err =>
      have h : AuthViewset.Register env (.ok rp) st = (some err, st) := by simp [AuthViewset.Register, hv]
      simp [h, newEvents_self]
    | none =>
      rw [key hv hne]
      simp [newEvents_log]

/-- C4 at a concrete request with the two-character username ab. -/
theorem C4_Register_validation_failure_witness :
    (AuthViewset.Register sampleEnv
          (.ok { Username := "ab", Telephone := "13800000001", Email := "",
                 Password := "secret123" }) emptyState =
        (none, emptyState.log (.FailResponse .ErrInvalid
          (AuthViewset.CheckRegisterParams sampleEnv.itemInter
            { Username := "ab", Telephone := "13800000001", Email := "",
              Password := "secret123" }))) ∧
      newEvents emptyState (AuthViewset.Register sampleEnv
          (.ok { Username := "ab", Telephone := "13800000001", Email := "",
                 Password := "secret123" }) emptyState).2 =
        [.FailResponse .ErrInvalid
          (AuthViewset.CheckRegisterParams sampleEnv.itemInter
            { Username := "ab", Telephone := "13800000001", Email := "",
              Password := "secret123" })]) ∧
    (lookup "username" (AuthViewset.CheckRegisterParams sampleEnv.itemInter
          { Username := "ab", Telephone := "13800000001", Email := "", Password := "secret123" })
        = some "用户名至少3位以上字母开头" ∧
      (∀ p, Event.GeneratePassword p ∉ newEvents emptyState (AuthViewset.Register sampleEnv
          (.ok { Username := "ab", Telephone := "13800000001", Email := "",
                 Password := "secret123" }) emptyState).2) ∧
      (∀ u, Event.Create u ∉ newEvents emptyState (AuthViewset.Register sampleEnv
          (.ok { Username := "ab", Telephone := "13800000001", Email := "",
                 Password := "secret123" }) emptyState).2)) :=
  ⟨(C4_Register_validation_failure sampleEnv
      { Username := "ab", Telephone := "13800000001", Email := "", Password := "secret123" }
      emptyState).1 (by decide) (by decide),
   (C4_Register_validation_failure sampleEnv
      { Username := "ab", Telephone := "13800000001", Email := "", Password := "secret123" }
      emptyState).2 (by decide)⟩

/-! ## The token driver -/

/-- C8: at the failing input the header is `Token ` followed by `abcToken def`; `Check` removes
every occurrence of `Token `, so the token parser receives `abcdef`, not the token that
followed the prefix. -/
theorem C8_Check_strips_inner_occurrences :
    stringsReplace ("Token " ++ "abcToken def") "Token " "" (-1) = "abcdef" ∧
      (jwtAuthManager.Check sampleEnv { Header := [("Authorization", "Token abcToken def")], Query := [] }
          emptyState).2.events
        = [.CheckCall, .ParseToken "abcdef", .LogError] ∧
      Event.ParseToken "abcToken def" ∉
        (jwtAuthManager.Check sampleEnv { Header := [("Authorization", "Token abcToken def")], Query := [] }
          emptyState).2.events := by
  decide

/-- C9, as stated, fails: with no identity cached and no `Authorization` header, `Check`
fails with `ErrTokenInvalid` and `User` panics with that error instead of returning. -/
theorem C9_User_panics_on_failed_Check :
    emptyState.Get "User" = none ∧
      (jwtAuthManager.Check sampleEnv { Header := [], Query := [] } emptyState).1 = some .ErrTokenInvalid ∧
      (jwtAuthManager.User sampleEnv { Header := [], Query := [] } emptyState).1
        = .panic .ErrTokenInvalid := by
  decide

/-- C9, amended: if an identity is cached under `"User"`, `User` returns it and the state is
untouched (`Check` is not invoked); otherwise `User` invokes `Check` and, when `Check` fails
with an error, logs it and panics with that same error; when `Check` succeeds, `User` returns
the identity `Check` cached. -/
theorem C9_User_cached_or_Check (env : Env) (c : Request) (st : State) :
    (∀ v, st.Get "User" = some v →
        jwtAuthManager.User env c st = (.ret v, st) ∧ Event.CheckCall ∉ newEvents st (jwtAuthManager.User env c st).2) ∧
    (st.Get "User" = none →
        (newEvents st (jwtAuthManager.User env c st).2).head? = some .CheckCall ∧
        (∀ err, (jwtAuthManager.Check env c st).1 = some err →
          jwtAuthManager.User env c st = (.panic err, (jwtAuthManager.Check env c st).2.log .LogError)) ∧
        ((jwtAuthManager.Check env c st).1 = none →
          (jwtAuthManager.User env c st).2 = (jwtAuthManager.Check env c st).2 ∧
          ∃ u, (jwtAuthManager.User env c st).1 = .ret (.UserPtr u) ∧
            (jwtAuthManager.Check env c st).2.Get "User" = some (.UserPtr u))) := by
  refine ⟨fun v hv => ?_, fun hn => ?_⟩
  · have h : jwtAuthManager.User env c st = (.ret v, st) := by simp [jwtAuthManager.User, hv]
    simp [h, newEvents_self]
  · by_cases ht : stringsReplace (getD c.Header "Authorization") "Token " "" (-1) = ""
    · have hc : jwtAuthManager.Check env c st = (some .ErrTokenInvalid, st.log .CheckCall) := by
        simp [jwtAuthManager.Check, ht]
      simp [jwtAuthManager.User, hn, hc, newEvents_log_log]
    · cases hp : env.ParseToken
          (stringsReplace (getD c.Header "Authorization") "Token " "" (-1)) with
      | error e =>
        have hc : jwtAuthManager.Check env c st = (some e,
            ((st.log .CheckCall).log (.ParseToken
              (stringsReplace (getD c.Header "Authorization") "Token " "" (-1)))).log
              .LogError) := by
          simp [jwtAuthManager.Check, ht, hp]
        simp [jwtAuthManager.User, hn, hc, newEvents, State.log]
      | ok cl =>
        cases hg : env.QueryGetUserByAccount cl.Username with
        | error e =>
          have hc : jwtAuthManager.Check env c st = (some e,
              (st.log .CheckCall).log (.ParseToken
                (stringsReplace (getD c.Header "Authorization") "Token " "" (-1)))) := by
            simp [jwtAuthManager.Check, ht, hp, hg]
          simp [jwtAuthManager.User, hn, hc, newEvents, State.log]
        | ok u =>
          have hc : jwtAuthManager.Check env c st = (none,
              ((st.log .CheckCall).log (.ParseToken
                (stringsReplace (getD c.Header "Authorization") "Token " "" (-1)))).Set
                "User" (.UserPtr u)) := by
            simp [jwtAuthManager.Check, ht, hp, hg]
          have hn2 : lookup "User" st.Keys = none := hn
          simp [jwtAuthManager.User, hc, newEvents, State.log, State.Set, State.Get, lookup_setKey, hn2]

/-- C9 at concrete contexts: a cached identity, no header, a valid token. -/
theorem C9_User_cached_or_Check_witness :
    (jwtAuthManager.User sampleEnv { Header := [], Query := [] }
          { Keys := [("User", .UserPtr alice)], cache := [], events := [] }
        = (.ret (.UserPtr alice), { Keys := [("User", .UserPtr alice)], cache := [], events := [] }) ∧
      Event.CheckCall ∉ newEvents { Keys := [("User", .UserPtr alice)], cache := [], events := [] }
        (jwtAuthManager.User sampleEnv { Header := [], Query := [] }
          { Keys := [("User", .UserPtr alice)], cache := [], events := [] }).2) ∧
    jwtAuthManager.User sampleEnv { Header := [], Query := [] } emptyState
      = (.panic .ErrTokenInvalid,
          (jwtAuthManager.Check sampleEnv { Header := [], Query := [] } emptyState).2.log .LogError) ∧
    ((jwtAuthManager.User sampleEnv { Header := [("Authorization", "Token jwt.alice")], Query := [] }
          emptyState).2
        = (jwtAuthManager.Check sampleEnv { Header := [("Authorization", "Token jwt.alice")], Query := [] }
            emptyState).2 ∧
      ∃ u, (jwtAuthManager.User sampleEnv { Header := [("Authorization", "Token jwt.alice")], Query := [] }
            emptyState).1 = .ret (.UserPtr u) ∧
          (jwtAuthManager.Check sampleEnv { Header := [("Authorization", "Token jwt.alice")], Query := [] }
            emptyState).2.Get "User" = some (.UserPtr u)) :=
  ⟨(C9_User_cached_or_Check sampleEnv { Header := [], Query := [] }
      { Keys := [("User", .UserPtr alice)], cache := [], events := [] }).1
      (.UserPtr alice) (by decide),
   ((C9_User_cached_or_Check sampleEnv { Header := [], Query := [] } emptyState).2
      (by decide)).2.1 .ErrTokenInvalid (by decide),
   ((C9_User_cached_or_Check sampleEnv
      { Header := [("Authorization", "Token jwt.alice")], Query := [] } emptyState).2
      (by decide)).2.2 (by decide)⟩

/-! ## SendEmailCode -/

/-- C10: `SendEmailCode` returns `ErrInvalid` and leaves the whole state as it was when the
identifier fails the email format check; when delivery returns an error it returns that error
and the code store is unchanged (nothing but the delivery attempt happened); when delivery
succeeds the code handed to the delivery call is stored under the identifier, after the
delivery; and a store write happens in no other case. -/
theorem C10_SendEmailCode_store (env : Env) (c : Request) (st : State) :
    (env.itemInter.IsValid (getD c.Query "email") "email" = false →
        AuthViewset.SendEmailCode env c st = (some .ErrInvalid, st)) ∧
    (∀ e, env.itemInter.IsValid (getD c.Query "email") "email" = true →
        env.SendEmailCode env.RandomCode (getD c.Query "email") = some e →
        (AuthViewset.SendEmailCode env c st).1 = some e ∧
        (AuthViewset.SendEmailCode env c st).2.cache = st.cache ∧
        newEvents st (AuthViewset.SendEmailCode env c st).2 =
          [.SendEmailCode env.RandomCode (getD c.Query "email")]) ∧
    (env.itemInter.IsValid (getD c.Query "email") "email" = true →
        env.SendEmailCode env.RandomCode (getD c.Query "email") = none →
        (AuthViewset.SendEmailCode env c st).2.cache = setKey st.cache (getD c.Query "email") env.RandomCode ∧
        GetCache (AuthViewset.SendEmailCode env c st).2 (getD c.Query "email") = some env.RandomCode ∧
        newEvents st (AuthViewset.SendEmailCode env c st).2 =
          [.SendEmailCode env.RandomCode (getD c.Query "email"),
           .SetCache (getD c.Query "email") env.RandomCode,
           .SuccessResponse (.GinH [("url", "")])]) ∧
    (∀ k v, Event.SetCache k v ∈ newEvents st (AuthViewset.SendEmailCode env c st).2 →
        env.itemInter.IsValid (getD c.Query "email") "email" = true ∧
        env.SendEmailCode env.RandomCode (getD c.Query "email") = none ∧
        k = getD c.Query "email" ∧ v = env.RandomCode) := by
  cases hv : env.itemInter.IsValid (getD c.Query "email") "email"
  · have h : AuthViewset.SendEmailCode env c st = (some .ErrInvalid, st) := by simp [AuthViewset.SendEmailCode, hv]
    simp [h, newEvents_self]
  · cases hs : env.SendEmailCode env.RandomCode (getD c.Query "email") with
    | some e =>
      have h : AuthViewset.SendEmailCode env c st =
          (some e, st.log (.SendEmailCode env.RandomCode (getD c.Query "email"))) := by
        simp [AuthViewset.SendEmailCode, hv, hs]
      simp [h, newEvents, State.log]
    | none =>
      have h : AuthViewset.SendEmailCode env c st =
          (env.SuccessResponse (.GinH [("url", "")]),
            (SetCache (st.log (.SendEmailCode env.RandomCode (getD c.Query "email")))
              (getD c.Query "email") env.RandomCode).log
              (.SuccessResponse (.GinH [("url", "")]))) := by
        simp [AuthViewset.SendEmailCode, hv, hs]
      simp [h, newEvents, State.log, SetCache, GetCache, lookup_setKey]

/-- C10 at concrete requests: a malformed address, a bouncing one, a good one. -/
theorem C10_SendEmailCode_store_witness :
    AuthViewset.SendEmailCode sampleEnv { Header := [], Query := [("email", "nobody")] } emptyState
      = (some .ErrInvalid, emptyState) ∧
    ((AuthViewset.SendEmailCode sampleEnv { Header := [], Query := [("email", "bounce@example.com")] }
          { Keys := [], cache := [("bounce@example.com", "old111")], events := [] }).1
        = some (.External "smtp: delivery failed") ∧
      (AuthViewset.SendEmailCode sampleEnv { Header := [], Query := [("email", "bounce@example.com")] }
          { Keys := [], cache := [("bounce@example.com", "old111")], events := [] }).2.cache
        = [("bounce@example.com", "old111")] ∧
      newEvents { Keys := [], cache := [("bounce@example.com", "old111")], events := [] }
          (AuthViewset.SendEmailCode sampleEnv { Header := [], Query := [("email", "bounce@example.com")] }
            { Keys := [], cache := [("bounce@example.com", "old111")], events := [] }).2
        = [.SendEmailCode "8f3k2z" "bounce@example.com"]) ∧
    ((AuthViewset.SendEmailCode sampleEnv { Header := [], Query := [("email", "alice@example.com")] }
          emptyState).2.cache = setKey [] "alice@example.com" "8f3k2z" ∧
      GetCache (AuthViewset.SendEmailCode sampleEnv { Header := [], Query := [("email", "alice@example.com")] }
          emptyState).2 "alice@example.com" = some "8f3k2z" ∧
      newEvents emptyState
          (AuthViewset.SendEmailCode sampleEnv { Header := [], Query := [("email", "alice@example.com")] }
            emptyState).2
        = [.SendEmailCode "8f3k2z" "alice@example.com",
           .SetCache "alice@example.com" "8f3k2z",
           .SuccessResponse (.GinH [("url", "")])]) ∧
    (sampleEnv.itemInter.IsValid "alice@example.com" "email" = true ∧
      sampleEnv.SendEmailCode "8f3k2z" "alice@example.com" = none ∧
      "alice@example.com" = "alice@example.com" ∧ "8f3k2z" = "8f3k2z") :=
  ⟨(C10_SendEmailCode_store sampleEnv { Header := [], Query := [("email", "nobody")] }
      emptyState).1 (by decide),
   (C10_SendEmailCode_store sampleEnv
      { Header := [], Query := [("email", "bounce@example.com")] }
      { Keys := [], cache := [("bounce@example.com", "old111")], events := [] }).2.1
      (.External "smtp: delivery failed") (by decide) (by decide),
   (C10_SendEmailCode_store sampleEnv
      { Header := [], Query := [("email", "alice@example.com")] } emptyState).2.2.1
      (by decide) (by decide),
   (C10_SendEmailCode_store sampleEnv
      { Header := [], Query := [("email", "alice@example.com")] } emptyState).2.2.2
      "alice@example.com" "8f3k2z" (by decide)⟩

end GoSso
